import Mathlib

/-!
Verification of the factom client library (`wsapistructs.go` and the wsapi
dispatcher) against its natural-language specification.

Bytes are modelled as `Nat` values (the Go `byte` type guarantees `< 256`;
where the code itself truncates, the truncation `% 256` is explicit).
Machine-integer conversions (`uint8`, `uint32`, `uint64`) are modelled by
explicit reductions modulo the corresponding power of two.
-/

namespace Factom

/-! ## Byte-level helpers (Go `encoding/binary`, `encoding/hex`) -/

/-- Big-endian 4-byte encoding, as written by `binary.Write(buf, binary.BigEndian, uint32 n)`.
Each byte is reduced `% 256`, which agrees byte-for-byte with first truncating
`n` to `uint32`. -/
def beBytes4 (n : Nat) : List Nat :=
  [n / 16777216 % 256, n / 65536 % 256, n / 256 % 256, n % 256]

/-- Big-endian 8-byte encoding, as written by `binary.Write(buf, binary.BigEndian, uint64 n)`. -/
def beBytes8 (n : Nat) : List Nat :=
  [n / 72057594037927936 % 256, n / 281474976710656 % 256,
   n / 1099511627776 % 256, n / 4294967296 % 256,
   n / 16777216 % 256, n / 65536 % 256, n / 256 % 256, n % 256]

/-- Value of a big-endian byte string. -/
def beVal (bs : List Nat) : Nat :=
  bs.foldl (fun a b => a * 256 + b) 0

/-- The sixteen lowercase hexadecimal digit characters used by Go's
`hex.EncodeToString`. -/
def hexDigits : List Char := "0123456789abcdef".data

/-- The lowercase hexadecimal digit for a nibble. -/
def hexDigit (n : Nat) : Char := hexDigits.getD n '0'

/-- Go's `hex.EncodeToString`: two lowercase hex digits per byte. -/
def hexEncode (bs : List Nat) : String :=
  String.mk (bs.foldr (fun b acc => hexDigit (b % 256 / 16) :: hexDigit (b % 256 % 16) :: acc) [])

/-! ## SHA-256 (Go `crypto/sha256`)

A direct executable model of FIPS 180-4 SHA-256 over byte lists, as used by
`sha256.New`/`Write`/`Sum` in `Entry.Hash` and by the `sha` helper in
`Chain.GenerateID`. All words are `Nat` values kept below `2^32` by explicit
reduction. -/

/-- Truncation to a 32-bit word. -/
def w32 (n : Nat) : Nat := n % 4294967296

/-- Right rotation of a 32-bit word by `n` bits. -/
def rotr32 (n x : Nat) : Nat := w32 (x / 2 ^ n + x % 2 ^ n * 2 ^ (32 - n))

/-- SHA-256 choice function; `x ^^^ 4294967295` is bitwise complement for `x < 2^32`. -/
def shaCh (e f g : Nat) : Nat := (e &&& f) ^^^ ((e ^^^ 4294967295) &&& g)

/-- SHA-256 majority function. -/
def shaMaj (a b c : Nat) : Nat := (a &&& b) ^^^ (a &&& c) ^^^ (b &&& c)

def bigSigma0 (x : Nat) : Nat := rotr32 2 x ^^^ rotr32 13 x ^^^ rotr32 22 x

def bigSigma1 (x : Nat) : Nat := rotr32 6 x ^^^ rotr32 11 x ^^^ rotr32 25 x

def smallSigma0 (x : Nat) : Nat := rotr32 7 x ^^^ rotr32 18 x ^^^ x / 8

def smallSigma1 (x : Nat) : Nat := rotr32 17 x ^^^ rotr32 19 x ^^^ x / 1024

/-- The SHA-256 round constants. -/
def shaK : List Nat :=
  [1116352408, 1899447441, 3049323471, 3921009573, 961987163, 1508970993,
   2453635748, 2870763221, 3624381080, 310598401, 607225278, 1426881987,
   1925078388, 2162078206, 2614888103, 3248222580, 3835390401, 4022224774,
   264347078, 604807628, 770255983, 1249150122, 1555081692, 1996064986,
   2554220882, 2821834349, 2952996808, 3210313671, 3336571891, 3584528711,
   113926993, 338241895, 666307205, 773529912, 1294757372, 1396182291,
   1695183700, 1986661051, 2177026350, 2456956037, 2730485921, 2820302411,
   3259730800, 3345764771, 3516065817, 3600352804, 4094571909, 275423344,
   430227734, 506948616, 659060556, 883997877, 958139571, 1322822218,
   1537002063, 1747873779, 1955562222, 2024104815, 2227730452, 2361852424,
   2428436474, 2756734187, 3204031479, 3329325298]

/-- Pack four bytes into a big-endian 32-bit word. -/
def toWord (a b c d : Nat) : Nat :=
  ((a % 256 * 256 + b % 256) * 256 + c % 256) * 256 + d % 256

/-- Group a byte list into big-endian 32-bit words (trailing partial group dropped;
inputs are always a multiple of four bytes). -/
def bytesToWords : List Nat → List Nat
  | a :: b :: c :: d :: rest => toWord a b c d :: bytesToWords rest
  | _ => []

/-- Extend a 16-word message schedule to 64 words. -/
def extendSchedule : Nat → Array Nat → Array Nat
  | 0, ws => ws
  | n + 1, ws =>
    let s := ws.size
    let v := w32 (smallSigma1 (ws.get! (s - 2)) + ws.get! (s - 7)
      + smallSigma0 (ws.get! (s - 15)) + ws.get! (s - 16))
    extendSchedule n (ws.push v)

/-- The eight 32-bit working variables of the SHA-256 compression function. -/
structure ShaState where
  a : Nat
  b : Nat
  c : Nat
  d : Nat
  e : Nat
  f : Nat
  g : Nat
  h : Nat

/-- The SHA-256 initial hash value. -/
def shaInit : ShaState :=
  ShaState.mk 1779033703 3144134277 1013904242 2773480762 1359893119 2600822924 528734635 1541459225

/-- One SHA-256 compression round. -/
def shaRound (st : ShaState) (k w : Nat) : ShaState :=
  let t1 := w32 (st.h + bigSigma1 st.e + shaCh st.e st.f st.g + k + w)
  let t2 := w32 (bigSigma0 st.a + shaMaj st.a st.b st.c)
  ⟨w32 (t1 + t2), st.a, st.b, st.c, w32 (st.d + t1), st.e, st.f, st.g⟩

/-- Compress one 64-byte chunk into the running state. -/
def shaCompress (st : ShaState) (chunk : List Nat) : ShaState :=
  let ws := extendSchedule 48 (bytesToWords chunk).toArray
  let fin := (shaK.zip ws.toList).foldl (fun s kw => shaRound s kw.1 kw.2) st
  ⟨w32 (st.a + fin.a), w32 (st.b + fin.b), w32 (st.c + fin.c), w32 (st.d + fin.d),
   w32 (st.e + fin.e), w32 (st.f + fin.f), w32 (st.g + fin.g), w32 (st.h + fin.h)⟩

/-- SHA-256 padding: a `0x80` byte, zeros to 56 mod 64, then the bit length
as 8 big-endian bytes. -/
def shaPad (msg : List Nat) : List Nat :=
  msg ++ [128] ++ List.replicate ((119 - msg.length % 64) % 64) 0 ++ beBytes8 (8 * msg.length)

/-- Split a byte list into 64-byte chunks. -/
def chunks64 : List Nat → List (List Nat)
  | [] => []
  | b :: bs => (b :: bs).take 64 :: chunks64 ((b :: bs).drop 64)
termination_by l => l.length
decreasing_by simp [List.length_drop]; omega

/-- SHA-256 digest of a byte list, as 32 bytes. -/
def sha256 (msg : List Nat) : List Nat :=
  let st := (chunks64 (shaPad msg)).foldl shaCompress shaInit
  beBytes4 st.a ++ beBytes4 st.b ++ beBytes4 st.c ++ beBytes4 st.d
    ++ beBytes4 st.e ++ beBytes4 st.f ++ beBytes4 st.g ++ beBytes4 st.h

/-- The `sha` helper of the factom package (SHA-256 digest of a byte slice),
called by `Chain.GenerateID`. -/
def sha (b : List Nat) : List Nat := sha256 b

/-! ## Entry (`wsapistructs.go`) -/

/-- A factom entry: `ChainID []byte`, `ExtIDs [][]byte`, `Data []byte`. -/
structure Entry where
  ChainID : List Nat
  ExtIDs : List (List Nat)
  Data : List Nat

/-- `Entry.MarshalBinary`: writes `byte(len(ChainID))`, the ChainID bytes,
`uint8(len(ExtIDs))`, then for each ExtID `uint32(len)` big-endian followed by
its bytes, then the raw Data. The `byte`/`uint8` conversions truncate `% 256`. -/
def Entry.MarshalBinary (e : Entry) : List Nat :=
  let buf := [e.ChainID.length % 256] ++ e.ChainID
  let buf := buf ++ [e.ExtIDs.length % 256]
  let buf := e.ExtIDs.foldl (fun buf bytes => buf ++ beBytes4 bytes.length ++ bytes) buf
  buf ++ e.Data

/-- `Entry.Hash`: lowercase hex of the SHA-256 digest of the marshalled entry. -/
def Entry.Hash (e : Entry) : String :=
  hexEncode (sha256 e.MarshalBinary)

/-- `Entry.Hex`: lowercase hex of the marshalled entry itself. -/
def Entry.Hex (e : Entry) : String :=
  hexEncode e.MarshalBinary

/-- The §4.2 byte layout stated by the specification's words, with the
length fields holding the exact lengths (one byte for `len(ChainID)` and the
ExtID count, 4 big-endian bytes per ExtID length). -/
def entryLayoutSpec (e : Entry) : List Nat :=
  [e.ChainID.length] ++ e.ChainID ++ [e.ExtIDs.length]
    ++ (e.ExtIDs.map fun x => beBytes4 x.length ++ x).flatten ++ e.Data

/-! ## Chain (`wsapistructs.go`) -/

/-- A factom chain: `ChainID []byte`, `Name [][]byte`, `FirstEntry *Entry`
(a possibly-nil pointer, modelled as `Option`). -/
structure Chain where
  ChainID : List Nat
  Name : List (List Nat)
  FirstEntry : Option Entry

/-- `Chain.GenerateID`: appends the SHA-256 digest of each `Name` segment to a
buffer, hashes the buffer, stores the digest into `ChainID` and returns its hex
encoding. Returns the updated chain together with the returned string. -/
def Chain.GenerateID (c : Chain) : Chain × String :=
  let b : List Nat := c.Name.foldl (fun b v => (sha v).foldl (fun b w => b ++ [w]) b) []
  let c' : Chain := { c with ChainID := sha b }
  (c', hexEncode c'.ChainID)

/-- `Chain.Hash`: the source is an unfinished stub returning the constant
string `"abcdefg"`. -/
def Chain.Hash (_ : Chain) : String := "abcdefg"

/-- `Chain.MarshalBinary`: raw `ChainID`, `uint64(len(Name))` big-endian, then
for each segment `uint64(len)` big-endian followed by its bytes. -/
def Chain.MarshalBinary (c : Chain) : List Nat :=
  let buf := c.ChainID
  let buf := buf ++ beBytes8 c.Name.length
  c.Name.foldl (fun buf bytes => buf ++ beBytes8 bytes.length ++ bytes) buf

/-- `Chain.Hex`: lowercase hex of the marshalled chain. -/
def Chain.Hex (c : Chain) : String :=
  hexEncode c.MarshalBinary

/-- The §4.3 chain byte layout stated by the specification's words: raw
`ChainID`, 8-byte big-endian segment count, then per segment an 8-byte
big-endian length and the raw bytes; `FirstEntry` does not appear. -/
def chainLayoutSpec (c : Chain) : List Nat :=
  c.ChainID ++ beBytes8 c.Name.length
    ++ (c.Name.map fun v => beBytes8 v.length ++ v).flatten

/-! ## Decoding by the inverse of the §4.2 layout -/

/-- Read exactly `k` bytes from the front of a byte string. -/
def readN (k : Nat) (bs : List Nat) : Option (List Nat × List Nat) :=
  if k ≤ bs.length then some (bs.take k, bs.drop k) else none

/-- Read `n` ExtIDs, each a 4-byte big-endian length followed by that many bytes. -/
def readExtIDs : Nat → List Nat → Option (List (List Nat) × List Nat)
  | 0, bs => some ([], bs)
  | n + 1, bs =>
    match readN 4 bs with
    | none => none
    | some (lenb, bs1) =>
      match readN (beVal lenb) bs1 with
      | none => none
      | some (x, bs2) =>
        match readExtIDs n bs2 with
        | none => none
        | some (xs, bs3) => some (x :: xs, bs3)

/-- Decode a byte string by the inverse of the §4.2 layout: a one-byte ChainID
length, the ChainID, a one-byte ExtID count, the length-prefixed ExtIDs, and
the remainder as Data. -/
def entryUnmarshal (bs : List Nat) : Option Entry :=
  match readN 1 bs with
  | none => none
  | some (nb, bs1) =>
    match readN (beVal nb) bs1 with
    | none => none
    | some (cid, bs2) =>
      match readN 1 bs2 with
      | none => none
      | some (cb, bs3) =>
        match readExtIDs (beVal cb) bs3 with
        | none => none
        | some (xs, rest) => some ⟨cid, xs, rest⟩

/-- The specification's literal codec example:
`ChainID = [0x01,0x02]`, `ExtIDs = [[0x41,0x42]]`, `Data = [0x43]`. -/
def exEntry : Entry := ⟨[1, 2], [[65, 66]], [67]⟩

/-- A second, separately written copy of the literal example entry. -/
def exEntryCopy : Entry := ⟨[1, 2], [[65, 66]], [67]⟩

/-- An entry whose ChainID is longer than 255 bytes, exercising the one-byte
length field's truncation. -/
def bigEntry : Entry := ⟨List.replicate 256 0, [], []⟩

/-- A small concrete chain with two name segments. -/
def chain0 : Chain := ⟨[], [[97], [98]], none⟩

end Factom

namespace Wsapi

open Factom

/-! ## The wsapi dispatcher

The dispatcher file (`package wsapi`) routes JSON-RPC requests to handlers over
a shared wallet. The wallet, the JSON-RPC envelope helpers and the address
classifier live outside the given source; they are modelled from the
specification where noted. Handlers are translated from the source, with the
wallet passed explicitly. Wallet operations are modelled by their returned
values (`Except` of the Go error), which is what the handlers inspect. -/

/-- A parsed JSON value. Numbers are modelled as integers, which covers every
value the claims exercise. -/
inductive Json where
  | null : Json
  | bool : Bool → Json
  | num : Int → Json
  | str : String → Json
  | arr : List Json → Json
  | obj : List (String × Json) → Json

/-- Modelled from the spec: the §4.5 error taxonomy of the factom JSON-RPC
helpers (`newInvalidRequestError` and friends are not in the given source).
Each kind carries its optional context data. -/
inductive JSONError where
  | invalidRequest : JSONError
  | methodNotFound : JSONError
  | invalidParams : JSONError
  | internalError : String → JSONError
deriving DecidableEq

def newInvalidRequestError : JSONError := .invalidRequest

def newMethodNotFoundError : JSONError := .methodNotFound

def newInvalidParamsError : JSONError := .invalidParams

def newCustomInternalError (data : String) : JSONError := .internalError data

/-- The five address kinds of §4.4. -/
inductive AddressType where
  | ECPub | ECSec | FactoidPub | FactoidSec | Unrecognized
deriving DecidableEq

/-- Modelled from the spec: §4.4's total classification of an address string by
its fixed leading-prefix structure (`factom.AddressStringType` is not in the
given source). Every string maps to exactly one kind; anything unrecognized,
including the empty string, is `Unrecognized`. -/
def AddressStringType (s : String) : AddressType :=
  match s.data with
  | 'F' :: 'A' :: _ => .FactoidPub
  | 'F' :: 's' :: _ => .FactoidSec
  | 'E' :: 'C' :: _ => .ECPub
  | 'E' :: 's' :: _ => .ECSec
  | _ => .Unrecognized

/-- A wallet address, exposing the `PubString`/`SecString` of the
`addressResponder` interface. -/
structure Address where
  pub : String
  sec : String
deriving DecidableEq

/-- Modelled from the spec: the §6 wallet capability the dispatcher drives.
Each operation is modelled by the value it returns to the handler
(`Except String` mirrors Go's `(value, error)` results); state mutation is
outside the claims checked here. `rate` stands for `factom.GetRate`, and
`getFactoidAddress`/`getECAddressFromSec` for the `factom` package's
secret-to-address constructors. -/
structure Wallet where
  getECAddress : String → Except String Address
  getFCTAddress : String → Except String Address
  generateECAddress : Except String Address
  generateFCTAddress : Except String Address
  getAllAddresses : Except String (List Address × List Address)
  getSeed : Except String String
  putFCTAddress : Address → Except String Unit
  putECAddress : Address → Except String Unit
  newTransaction : String → Except String Unit
  deleteTransaction : String → Except String Unit
  addInput : String → String → Nat → Except String Unit
  addOutput : String → String → Nat → Except String Unit
  addECOutput : String → String → Nat → Except String Unit
  addFee : String → String → Nat → Except String Unit
  subFee : String → String → Nat → Except String Unit
  signTransaction : String → Except String Unit
  composeTransaction : String → Except String String
  rate : Except String Nat
  getFactoidAddress : String → Except String Address
  getECAddressFromSec : String → Except String Address

/-- The `addressResponse` JSON shape (`Public`, `Secret`). -/
structure addressResponse where
  Public : String
  Secret : String
deriving DecidableEq

/-- `mkAddressResponse`: copies the public and secret strings of an address. -/
def mkAddressResponse (a : Address) : addressResponse :=
  ⟨a.pub, a.sec⟩

/-- The possible `Result` payloads produced by the handlers. -/
inductive ApiResult where
  | address : addressResponse → ApiResult
  | multiAddress : List addressResponse → ApiResult
  | walletBackup : String → List addressResponse → ApiResult
  | str : String → ApiResult
deriving DecidableEq

/-! ### Parameter binding

`mapToObject` re-encodes `params` with `json.Marshal` and decodes the result
into the request struct with `json.Unmarshal`. On an already-parsed JSON value
this round trip is exactly a structural decode into the struct, following
`encoding/json` semantics: an object key matches a struct field's name
case-insensitively (with several matching keys the one processed last wins),
unmatched object fields are ignored, absent or null fields leave the zero
value, a JSON type mismatch is an error, and a top-level value that is not an
object (or null) is an error. -/

/-- Case folding of a field name, as used by `encoding/json` key matching. -/
def keyFold (s : String) : List Char := s.data.map Char.toLower

/-- Look up the JSON object entry bound to a struct field: keys match the
field name case-insensitively, and of several matching keys the last wins. -/
def jsonField (fields : List (String × Json)) (key : String) : Option Json :=
  fields.foldl (fun acc p => if keyFold p.fst == keyFold key then some p.snd else acc) none

/-- Decode a string-typed struct field from a JSON object, `encoding/json`
style: absent or null yields the zero value `""`, a non-string is an error. -/
def decodeStringField (fields : List (String × Json)) (key : String) : Option String :=
  match jsonField fields key with
  | none => some ""
  | some .null => some ""
  | some (.str s) => some s
  | some _ => none

/-- Decode a `uint64`-typed struct field: absent or null yields `0`, a
negative or non-number value is an error. -/
def decodeUInt64Field (fields : List (String × Json)) (key : String) : Option Nat :=
  match jsonField fields key with
  | none => some 0
  | some .null => some 0
  | some (.num n) => if 0 ≤ n then some n.toNat else none
  | some _ => none

/-- `addressRequest` (`json:"address"`). -/
structure addressRequest where
  Address : String
deriving DecidableEq

/-- `mapToObject` into `addressRequest`. -/
def mapToAddressRequest : Json → Option addressRequest
  | .null => some ⟨""⟩
  | .obj fields => (decodeStringField fields "address").map addressRequest.mk
  | _ => none

/-- Modelled from the spec: §4.1's `transactionRequest{name}` shape (the struct
itself is not in the given source, only its use in the handlers). -/
structure transactionRequest where
  Name : String
deriving DecidableEq

/-- `mapToObject` into `transactionRequest`. -/
def mapToTransactionRequest : Json → Option transactionRequest
  | .null => some ⟨""⟩
  | .obj fields => (decodeStringField fields "name").map transactionRequest.mk
  | _ => none

/-- Modelled from the spec: §4.1's `transactionValueRequest{name, address,
amount}` shape. -/
structure transactionValueRequest where
  Name : String
  Address : String
  Amount : Nat
deriving DecidableEq

/-- `mapToObject` into `transactionValueRequest`. -/
def mapToTransactionValueRequest : Json → Option transactionValueRequest
  | .null => some ⟨"", "", 0⟩
  | .obj fields =>
    match decodeStringField fields "name", decodeStringField fields "address",
        decodeUInt64Field fields "amount" with
    | some n, some a, some v => some ⟨n, a, v⟩
    | _, _, _ => none
  | _ => none

/-- Modelled from the spec: §4.1's `transactionAddressRequest{name, address}`
shape. -/
structure transactionAddressRequest where
  Name : String
  Address : String
deriving DecidableEq

/-- `mapToObject` into `transactionAddressRequest`. -/
def mapToTransactionAddressRequest : Json → Option transactionAddressRequest
  | .null => some ⟨"", ""⟩
  | .obj fields =>
    match decodeStringField fields "name", decodeStringField fields "address" with
    | some n, some a => some ⟨n, a⟩
    | _, _ => none
  | _ => none

/-- Modelled from the spec: one element of §4.1's `importRequest` list
(`{secret}`). -/
structure importAddress where
  Secret : String
deriving DecidableEq

/-- Modelled from the spec: §4.1's `importRequest{addresses: [{secret}]}`
shape. -/
structure importRequest where
  Addresses : List importAddress
deriving DecidableEq

/-- Decode one element of the `addresses` array. -/
def decodeImportAddress : Json → Option importAddress
  | .null => some ⟨""⟩
  | .obj fields => (decodeStringField fields "secret").map importAddress.mk
  | _ => none

/-- `mapToObject` into `importRequest`. -/
def mapToImportRequest : Json → Option importRequest
  | .null => some ⟨[]⟩
  | .obj fields =>
    match jsonField fields "addresses" with
    | none => some ⟨[]⟩
    | some .null => some ⟨[]⟩
    | some (.arr xs) => (xs.mapM decodeImportAddress).map importRequest.mk
    | some _ => none
  | _ => none

/-! ### Handlers -/

/-- `handleAddress`: bind `addressRequest`, classify the address, and look it
up as an EC or Factoid address; any other kind is an internal error. -/
def handleAddress (w : Wallet) (params : Json) : Except JSONError ApiResult :=
  match mapToAddressRequest params with
  | none => .error newInvalidParamsError
  | some req =>
    match AddressStringType req.Address with
    | .ECPub =>
      match w.getECAddress req.Address with
      | .error err => .error (newCustomInternalError err)
      | .ok e => .ok (.address (mkAddressResponse e))
    | .FactoidPub =>
      match w.getFCTAddress req.Address with
      | .error err => .error (newCustomInternalError err)
      | .ok f => .ok (.address (mkAddressResponse f))
    | _ => .error (newCustomInternalError "Invalid address type")

/-- `handleAllAddresses`: list all Factoid then EC addresses; `params` is
never read. -/
def handleAllAddresses (w : Wallet) (_params : Json) : Except JSONError ApiResult :=
  match w.getAllAddresses with
  | .error err => .error (newCustomInternalError err)
  | .ok (fs, es) => .ok (.multiAddress (fs.map mkAddressResponse ++ es.map mkAddressResponse))

/-- `handleGenerateFactoidAddress`: generate a Factoid address; `params` is
never read. -/
def handleGenerateFactoidAddress (w : Wallet) (_params : Json) : Except JSONError ApiResult :=
  match w.generateFCTAddress with
  | .error err => .error (newCustomInternalError err)
  | .ok a => .ok (.address (mkAddressResponse a))

/-- `handleGenerateECAddress`: generate an EC address; `params` is never
read. -/
def handleGenerateECAddress (w : Wallet) (_params : Json) : Except JSONError ApiResult :=
  match w.generateECAddress with
  | .error err => .error (newCustomInternalError err)
  | .ok a => .ok (.address (mkAddressResponse a))

/-- The loop body of `handleImportAddresses`: classify each secret, construct
and store the address, accumulating responses, stopping at the first error. -/
def importLoop (w : Wallet) : List importAddress → Except JSONError (List addressResponse)
  | [] => .ok []
  | v :: rest =>
    match AddressStringType v.Secret with
    | .FactoidSec =>
      match w.getFactoidAddress v.Secret with
      | .error err => .error (newCustomInternalError err)
      | .ok f =>
        match w.putFCTAddress f with
        | .error err => .error (newCustomInternalError err)
        | .ok _ =>
          match importLoop w rest with
          | .error e => .error e
          | .ok as => .ok (mkAddressResponse f :: as)
    | .ECSec =>
      match w.getECAddressFromSec v.Secret with
      | .error err => .error (newCustomInternalError err)
      | .ok e =>
        match w.putECAddress e with
        | .error err => .error (newCustomInternalError err)
        | .ok _ =>
          match importLoop w rest with
          | .error er => .error er
          | .ok as => .ok (mkAddressResponse e :: as)
    | _ => .error (newCustomInternalError "address could not be imported")

/-- `handleImportAddresses`: bind `importRequest` and import each secret. -/
def handleImportAddresses (w : Wallet) (params : Json) : Except JSONError ApiResult :=
  match mapToImportRequest params with
  | none => .error newInvalidParamsError
  | some req =>
    match importLoop w req.Addresses with
    | .error e => .error e
    | .ok as => .ok (.multiAddress as)

/-- `handleWalletBackup`: export the seed and all addresses; `params` is never
read. -/
def handleWalletBackup (w : Wallet) (_params : Json) : Except JSONError ApiResult :=
  match w.getSeed with
  | .error err => .error (newCustomInternalError err)
  | .ok seed =>
    match w.getAllAddresses with
    | .error err => .error (newCustomInternalError err)
    | .ok (fs, es) => .ok (.walletBackup seed (fs.map mkAddressResponse ++ es.map mkAddressResponse))

/-- `handleNewTransaction`: bind `transactionRequest` and create the draft. -/
def handleNewTransaction (w : Wallet) (params : Json) : Except JSONError ApiResult :=
  match mapToTransactionRequest params with
  | none => .error newInvalidParamsError
  | some req =>
    match w.newTransaction req.Name with
    | .error err => .error (newCustomInternalError err)
    | .ok _ => .ok (.str "success")

/-- `handleDeleteTransaction`: bind `transactionRequest` and delete the
draft. -/
def handleDeleteTransaction (w : Wallet) (params : Json) : Except JSONError ApiResult :=
  match mapToTransactionRequest params with
  | none => .error newInvalidParamsError
  | some req =>
    match w.deleteTransaction req.Name with
    | .error err => .error (newCustomInternalError err)
    | .ok _ => .ok (.str "success")

/-- `handleAddInput`: bind `transactionValueRequest` and add an input. -/
def handleAddInput (w : Wallet) (params : Json) : Except JSONError ApiResult :=
  match mapToTransactionValueRequest params with
  | none => .error newInvalidParamsError
  | some req =>
    match w.addInput req.Name req.Address req.Amount with
    | .error err => .error (newCustomInternalError err)
    | .ok _ => .ok (.str "success")

/-- `handleAddOutput`: bind `transactionValueRequest` and add an output. -/
def handleAddOutput (w : Wallet) (params : Json) : Except JSONError ApiResult :=
  match mapToTransactionValueRequest params with
  | none => .error newInvalidParamsError
  | some req =>
    match w.addOutput req.Name req.Address req.Amount with
    | .error err => .error (newCustomInternalError err)
    | .ok _ => .ok (.str "success")

/-- `handleAddECOutput`: bind `transactionValueRequest` and add an EC
output. -/
def handleAddECOutput (w : Wallet) (params : Json) : Except JSONError ApiResult :=
  match mapToTransactionValueRequest params with
  | none => .error newInvalidParamsError
  | some req =>
    match w.addECOutput req.Name req.Address req.Amount with
    | .error err => .error (newCustomInternalError err)
    | .ok _ => .ok (.str "success")

/-- `handleAddFee`: bind `transactionAddressRequest`, fetch the rate, and add
the fee. -/
def handleAddFee (w : Wallet) (params : Json) : Except JSONError ApiResult :=
  match mapToTransactionAddressRequest params with
  | none => .error newInvalidParamsError
  | some req =>
    match w.rate with
    | .error err => .error (newCustomInternalError err)
    | .ok rate =>
      match w.addFee req.Name req.Address rate with
      | .error err => .error (newCustomInternalError err)
      | .ok _ => .ok (.str "success")

/-- `handleSubFee`: bind `transactionAddressRequest`, fetch the rate, and
subtract the fee. -/
def handleSubFee (w : Wallet) (params : Json) : Except JSONError ApiResult :=
  match mapToTransactionAddressRequest params with
  | none => .error newInvalidParamsError
  | some req =>
    match w.rate with
    | .error err => .error (newCustomInternalError err)
    | .ok rate =>
      match w.subFee req.Name req.Address rate with
      | .error err => .error (newCustomInternalError err)
      | .ok _ => .ok (.str "success")

/-- `handleSignTransaction`: bind `transactionRequest` and sign the draft. -/
def handleSignTransaction (w : Wallet) (params : Json) : Except JSONError ApiResult :=
  match mapToTransactionRequest params with
  | none => .error newInvalidParamsError
  | some req =>
    match w.signTransaction req.Name with
    | .error err => .error (newCustomInternalError err)
    | .ok _ => .ok (.str "success")

/-- `handleComposeTransaction`: bind `transactionRequest` and compose the
draft. -/
def handleComposeTransaction (w : Wallet) (params : Json) : Except JSONError ApiResult :=
  match mapToTransactionRequest params with
  | none => .error newInvalidParamsError
  | some req =>
    match w.composeTransaction req.Name with
    | .error err => .error (newCustomInternalError err)
    | .ok t => .ok (.str t)

/-! ### Dispatch -/

/-- A parsed JSON-RPC 2.0 request envelope. -/
structure JSON2Request where
  method : String
  params : Json
  id : Json

/-- A JSON-RPC 2.0 response envelope; exactly one of `result`/`error` is
populated. -/
structure JSON2Response where
  id : Json
  result : Option ApiResult
  error : Option JSONError

/-- The fifteen method names of the dispatch switch. -/
def recognizedMethods : List String :=
  ["address", "all-addresses", "generate-ec-address", "generate-factoid-address",
   "import-addresses", "wallet-backup", "new-transaction", "delete-transaction",
   "add-input", "add-output", "add-ec-output", "add-fee", "sub-fee",
   "sign-transaction", "compose-transaction"]

/-- The method switch of `handleV2Request` (a Go string switch is sequential
comparison against the case labels). -/
def dispatch (w : Wallet) (j : JSON2Request) : Except JSONError ApiResult :=
  if j.method = "address" then handleAddress w j.params
  else if j.method = "all-addresses" then handleAllAddresses w j.params
  else if j.method = "generate-ec-address" then handleGenerateECAddress w j.params
  else if j.method = "generate-factoid-address" then handleGenerateFactoidAddress w j.params
  else if j.method = "import-addresses" then handleImportAddresses w j.params
  else if j.method = "wallet-backup" then handleWalletBackup w j.params
  else if j.method = "new-transaction" then handleNewTransaction w j.params
  else if j.method = "delete-transaction" then handleDeleteTransaction w j.params
  else if j.method = "add-input" then handleAddInput w j.params
  else if j.method = "add-output" then handleAddOutput w j.params
  else if j.method = "add-ec-output" then handleAddECOutput w j.params
  else if j.method = "add-fee" then handleAddFee w j.params
  else if j.method = "sub-fee" then handleSubFee w j.params
  else if j.method = "sign-transaction" then handleSignTransaction w j.params
  else if j.method = "compose-transaction" then handleComposeTransaction w j.params
  else .error newMethodNotFoundError

/-- `handleV2Request`: run the method switch; an error is returned as such,
otherwise a response carrying the caller's `ID` and the handler's result. -/
def handleV2Request (w : Wallet) (j : JSON2Request) : Except JSONError JSON2Response :=
  match dispatch w j with
  | .error e => .error e
  | .ok res => .ok ⟨j.id, some res, none⟩

/-- Modelled from the spec: `handleV2Error` is called by `handleV2` but its
body is not in the given source; per §3 the request `ID` is echoed verbatim
(absent when none could be parsed) and only the error side is populated. -/
def handleV2Error (j : Option JSON2Request) (e : JSONError) : JSON2Response :=
  ⟨match j with | some j => j.id | none => .null, none, some e⟩

/-- The tail of `handleV2` after a successful parse: dispatch, and render
either the success response or the error response. -/
def processParsedRequest (w : Wallet) (j : JSON2Request) : JSON2Response :=
  match handleV2Request w j with
  | .error e => handleV2Error (some j) e
  | .ok resp => resp

/-- A concrete wallet instance whose every operation fails; used to
instantiate theorems at concrete inputs. -/
def emptyWallet : Wallet where
  getECAddress := fun _ => .error "no wallet"
  getFCTAddress := fun _ => .error "no wallet"
  generateECAddress := .error "no wallet"
  generateFCTAddress := .error "no wallet"
  getAllAddresses := .error "no wallet"
  getSeed := .error "no wallet"
  putFCTAddress := fun _ => .error "no wallet"
  putECAddress := fun _ => .error "no wallet"
  newTransaction := fun _ => .error "no wallet"
  deleteTransaction := fun _ => .error "no wallet"
  addInput := fun _ _ _ => .error "no wallet"
  addOutput := fun _ _ _ => .error "no wallet"
  addECOutput := fun _ _ _ => .error "no wallet"
  addFee := fun _ _ _ => .error "no wallet"
  subFee := fun _ _ _ => .error "no wallet"
  signTransaction := fun _ => .error "no wallet"
  composeTransaction := fun _ => .error "no wallet"
  rate := .error "no wallet"
  getFactoidAddress := fun _ => .error "no wallet"
  getECAddressFromSec := fun _ => .error "no wallet"

end Wsapi

/-! ## Theorems -/

namespace Factom

/-- Pushing elements one at a time onto a buffer appends the whole list. -/
theorem foldl_snoc (l : List Nat) : ∀ b : List Nat,
    l.foldl (fun b w => b ++ [w]) b = b ++ l := by
  induction l with
  | nil => intro b; simp
  | cons x xs ih => intro b; simp [ih]

/-- The ExtID loop of `Entry.MarshalBinary` appends the concatenation of the
length-prefixed chunks. -/
theorem foldl_extid_chunks (xs : List (List Nat)) : ∀ b : List Nat,
    xs.foldl (fun buf bytes => buf ++ beBytes4 bytes.length ++ bytes) b
      = b ++ (xs.map fun x => beBytes4 x.length ++ x).flatten := by
  induction xs with
  | nil => intro b; simp
  | cons x xs ih => intro b; rw [List.foldl_cons, ih]; simp

/-- The Name loop of `Chain.MarshalBinary` appends the concatenation of the
length-prefixed segments. -/
theorem foldl_name_chunks (xs : List (List Nat)) : ∀ b : List Nat,
    xs.foldl (fun buf bytes => buf ++ beBytes8 bytes.length ++ bytes) b
      = b ++ (xs.map fun x => beBytes8 x.length ++ x).flatten := by
  induction xs with
  | nil => intro b; simp
  | cons x xs ih => intro b; rw [List.foldl_cons, ih]; simp

/-- Appending digests one segment at a time yields the concatenation of the
per-segment digests. -/
theorem foldl_sha_segments (xs : List (List Nat)) : ∀ b : List Nat,
    xs.foldl (fun b v => b ++ sha v) b = b ++ (xs.map sha).flatten := by
  induction xs with
  | nil => intro b; simp
  | cons x xs ih => intro b; simp [ih]

/-- `Entry.MarshalBinary`, written as one concatenation. -/
theorem entry_marshal_normal_form (e : Entry) :
    e.MarshalBinary = [e.ChainID.length % 256] ++ e.ChainID ++ [e.ExtIDs.length % 256]
      ++ (e.ExtIDs.map fun x => beBytes4 x.length ++ x).flatten ++ e.Data := by
  rw [show e.MarshalBinary
      = e.ExtIDs.foldl (fun buf bytes => buf ++ beBytes4 bytes.length ++ bytes)
          ([e.ChainID.length % 256] ++ e.ChainID ++ [e.ExtIDs.length % 256]) ++ e.Data from rfl,
    foldl_extid_chunks]

/-- `Chain.MarshalBinary`, written as one concatenation. -/
theorem chain_marshal_normal_form (c : Chain) :
    c.MarshalBinary = c.ChainID ++ beBytes8 c.Name.length
      ++ (c.Name.map fun v => beBytes8 v.length ++ v).flatten := by
  rw [show c.MarshalBinary
      = c.Name.foldl (fun buf bytes => buf ++ beBytes8 bytes.length ++ bytes)
          (c.ChainID ++ beBytes8 c.Name.length) from rfl,
    foldl_name_chunks]

/-- A one-byte big-endian string has its byte as value. -/
theorem beVal_singleton (a : Nat) : beVal [a] = a := by
  simp [beVal]

/-- `beBytes4` is four bytes long. -/
theorem length_beBytes4 (n : Nat) : (beBytes4 n).length = 4 := rfl

/-- Decoding the 4-byte big-endian encoding recovers any value below `2^32`. -/
theorem beVal_beBytes4 (n : Nat) (h : n < 4294967296) : beVal (beBytes4 n) = n := by
  simp [beVal, beBytes4]
  omega

/-- Reading exactly the length of a prefix splits it off. -/
theorem readN_exact (l1 l2 : List Nat) : readN l1.length (l1 ++ l2) = some (l1, l2) := by
  simp [readN, List.take_left, List.drop_left]

end Factom

namespace Factom

/-- Reading back `n` length-prefixed ExtIDs from their encoding recovers them,
provided every length fits the 4-byte field. -/
theorem readExtIDs_encode (xs : List (List Nat)) (h : ∀ x ∈ xs, x.length < 4294967296) :
    ∀ rest : List Nat,
      readExtIDs xs.length ((xs.map fun x => beBytes4 x.length ++ x).flatten ++ rest)
        = some (xs, rest) := by
  induction xs with
  | nil => intro rest; simp [readExtIDs]
  | cons x xs ih =>
    intro rest
    have hx : x.length < 4294967296 := h x (by simp)
    have hxs : ∀ y ∈ xs, y.length < 4294967296 := fun y hy => h y (by simp [hy])
    have r1 : readN 4 (beBytes4 x.length
        ++ (x ++ ((xs.map fun x => beBytes4 x.length ++ x).flatten ++ rest)))
        = some (beBytes4 x.length,
            x ++ ((xs.map fun x => beBytes4 x.length ++ x).flatten ++ rest)) :=
      readN_exact (beBytes4 x.length) _
    have r2 : readN x.length (x ++ ((xs.map fun x => beBytes4 x.length ++ x).flatten ++ rest))
        = some (x, (xs.map fun x => beBytes4 x.length ++ x).flatten ++ rest) :=
      readN_exact x _
    simp only [List.map_cons, List.flatten_cons, List.append_assoc, List.length_cons]
    rw [show xs.length + 1 = Nat.succ xs.length from rfl]
    unfold readExtIDs
    simp only [r1, beVal_beBytes4 _ hx, r2, ih hxs]

/-- Every hex digit character is one of the sixteen lowercase digits. -/
theorem hexDigit_mem (n : Nat) : hexDigit n ∈ hexDigits := by
  unfold hexDigit
  rcases Nat.lt_or_ge n hexDigits.length with h | h
  · rw [List.getD_eq_getElem _ _ h]; exact List.getElem_mem _
  · rw [List.getD_eq_default _ _ h]; decide

/-- Boolean form of `hexDigit_mem`. -/
theorem hexDigit_contains (n : Nat) : hexDigits.contains (hexDigit n) = true :=
  List.elem_eq_true_of_mem (hexDigit_mem n)

/-- Every character emitted by `hexEncode` is a lowercase hexadecimal digit. -/
theorem hexEncode_lower (bs : List Nat) :
    ((hexEncode bs).data.all fun ch => hexDigits.contains ch) = true := by
  show ((bs.foldr (fun b acc => hexDigit (b % 256 / 16) :: hexDigit (b % 256 % 16) :: acc)
      []).all fun ch => hexDigits.contains ch) = true
  induction bs with
  | nil => rfl
  | cons b bs ih =>
    rw [List.foldr_cons, List.all_cons, List.all_cons, hexDigit_contains, hexDigit_contains, ih]
    rfl

end Factom

namespace Factom

set_option maxRecDepth 8192 in
/-- C1 (counterexample to the unrestricted claim): for the entry whose ChainID
is 256 bytes long, `MarshalBinary` does not produce the spec's layout with a
leading byte equal to `len(ChainID)`: the one-byte field holds `0`, not `256`. -/
theorem entry_marshal_layout_counterexample :
    Entry.MarshalBinary bigEntry ≠ entryLayoutSpec bigEntry := by decide

/-- C1 (amended): for every Entry whose ChainID length and ExtID count fit one
byte, `MarshalBinary` is exactly the §4.2 concatenation — one byte
`len(ChainID)`, the ChainID bytes, one byte the ExtID count, each ExtID
4-byte big-endian length-prefixed, then the raw Data; and the literal example
entry encodes to `02 01 02 01 00 00 00 02 41 42 43`. (Without the bounds the
one-byte fields hold the length and count reduced `% 256`.) -/
theorem entry_marshal_follows_spec_layout :
    (∀ e : Entry, e.ChainID.length ≤ 255 → e.ExtIDs.length ≤ 255 →
      e.MarshalBinary = entryLayoutSpec e)
    ∧ Entry.MarshalBinary exEntry = [2, 1, 2, 1, 0, 0, 0, 2, 65, 66, 67] := by
  refine ⟨fun e h1 h2 => ?_, rfl⟩
  rw [entry_marshal_normal_form]
  unfold entryLayoutSpec
  rw [Nat.mod_eq_of_lt (by omega), Nat.mod_eq_of_lt (by omega)]

/-- C1 witness: the bounds hold for the literal example entry and its encoding
matches the spec layout. -/
theorem entry_marshal_follows_spec_layout_witness :
    (exEntry.ChainID.length ≤ 255 ∧ exEntry.ExtIDs.length ≤ 255)
      ∧ Entry.MarshalBinary exEntry = entryLayoutSpec exEntry :=
  ⟨by decide, entry_marshal_follows_spec_layout.1 exEntry (by decide) (by decide)⟩

/-- C2: `GenerateID` hashes each Name segment with SHA-256, hashes the
concatenation of the digests, stores that digest into `ChainID` (leaving the
other fields unchanged) and returns its hex encoding, every character of which
is a lowercase hexadecimal digit. -/
theorem chain_generate_id_spec (c : Chain) :
    c.GenerateID.1.ChainID = sha256 ((c.Name.map sha256).flatten)
    ∧ c.GenerateID.2 = hexEncode (sha256 ((c.Name.map sha256).flatten))
    ∧ c.GenerateID.1.Name = c.Name
    ∧ c.GenerateID.1.FirstEntry = c.FirstEntry
    ∧ (c.GenerateID.2.data.all fun ch => hexDigits.contains ch) = true := by
  have hb : c.Name.foldl (fun b v => (sha v).foldl (fun b w => b ++ [w]) b) ([] : List Nat)
      = (c.Name.map sha256).flatten := by
    simp only [foldl_snoc]
    rw [foldl_sha_segments]
    rfl
  have hg : c.GenerateID
      = ({ c with ChainID := sha256 ((c.Name.map sha256).flatten) },
         hexEncode (sha256 ((c.Name.map sha256).flatten))) := by
    show ({ c with
            ChainID := sha (c.Name.foldl (fun b v => (sha v).foldl (fun b w => b ++ [w]) b) []) },
          hexEncode (sha (c.Name.foldl (fun b v => (sha v).foldl (fun b w => b ++ [w]) b) [])))
        = _
    rw [hb]
    rfl
  refine ⟨by rw [hg], by rw [hg], by rw [hg], by rw [hg], ?_⟩
  rw [hg]
  exact hexEncode_lower _

/-- C3: `Entry.Hash` is the lowercase hex of the SHA-256 digest of the
marshalled entry, and is a pure function of the entry's three fields. -/
theorem entry_hash_is_sha256_hex :
    (∀ e : Entry, e.Hash = hexEncode (sha256 e.MarshalBinary))
    ∧ ∀ e₁ e₂ : Entry, e₁.ChainID = e₂.ChainID → e₁.ExtIDs = e₂.ExtIDs →
        e₁.Data = e₂.Data → e₁.Hash = e₂.Hash := by
  refine ⟨fun e => rfl, fun e₁ e₂ h1 h2 h3 => ?_⟩
  have he : e₁ = e₂ := by cases e₁; cases e₂; simp_all
  rw [he]

/-- C3 witness: two separately written entries with equal fields have the same
hash. -/
theorem entry_hash_witness :
    (exEntry.ChainID = exEntryCopy.ChainID ∧ exEntry.ExtIDs = exEntryCopy.ExtIDs
      ∧ exEntry.Data = exEntryCopy.Data)
    ∧ exEntry.Hash = exEntryCopy.Hash :=
  ⟨⟨rfl, rfl, rfl⟩, entry_hash_is_sha256_hex.2 exEntry exEntryCopy rfl rfl rfl⟩

/-- C4: decoding `MarshalBinary` by the inverse of the §4.2 layout recovers the
entry exactly, whenever the ChainID length and ExtID count fit one byte and
every ExtID length fits four bytes. -/
theorem entry_marshal_roundtrip (e : Entry) (h1 : e.ChainID.length ≤ 255)
    (h2 : e.ExtIDs.length ≤ 255) (h3 : ∀ x ∈ e.ExtIDs, x.length < 4294967296) :
    entryUnmarshal e.MarshalBinary = some e := by
  rw [entry_marshal_normal_form]
  simp only [List.append_assoc]
  unfold entryUnmarshal
  have e1 : readN 1 ([e.ChainID.length % 256] ++ (e.ChainID ++ ([e.ExtIDs.length % 256]
        ++ ((e.ExtIDs.map fun x => beBytes4 x.length ++ x).flatten ++ e.Data))))
      = some ([e.ChainID.length % 256], e.ChainID ++ ([e.ExtIDs.length % 256]
        ++ ((e.ExtIDs.map fun x => beBytes4 x.length ++ x).flatten ++ e.Data))) :=
    readN_exact [e.ChainID.length % 256] _
  have hm1 : e.ChainID.length % 256 = e.ChainID.length := Nat.mod_eq_of_lt (by omega)
  have e2 : readN e.ChainID.length (e.ChainID ++ ([e.ExtIDs.length % 256]
        ++ ((e.ExtIDs.map fun x => beBytes4 x.length ++ x).flatten ++ e.Data)))
      = some (e.ChainID, [e.ExtIDs.length % 256]
        ++ ((e.ExtIDs.map fun x => beBytes4 x.length ++ x).flatten ++ e.Data)) :=
    readN_exact e.ChainID _
  have e3 : readN 1 ([e.ExtIDs.length % 256]
        ++ ((e.ExtIDs.map fun x => beBytes4 x.length ++ x).flatten ++ e.Data))
      = some ([e.ExtIDs.length % 256],
          (e.ExtIDs.map fun x => beBytes4 x.length ++ x).flatten ++ e.Data) :=
    readN_exact [e.ExtIDs.length % 256] _
  have hm2 : e.ExtIDs.length % 256 = e.ExtIDs.length := Nat.mod_eq_of_lt (by omega)
  simp only [e1]
  simp only [beVal_singleton, hm1]
  simp only [e2]
  simp only [e3]
  simp only [beVal_singleton, hm2]
  simp only [readExtIDs_encode e.ExtIDs h3]

/-- C4 witness: the literal example entry round-trips. -/
theorem entry_marshal_roundtrip_witness :
    (exEntry.ChainID.length ≤ 255 ∧ exEntry.ExtIDs.length ≤ 255
      ∧ ∀ x ∈ exEntry.ExtIDs, x.length < 4294967296)
    ∧ entryUnmarshal exEntry.MarshalBinary = some exEntry :=
  ⟨by decide, entry_marshal_roundtrip exEntry (by decide) (by decide) (by decide)⟩

/-- C5: `MarshalBinary` never rejects an oversized ChainID or ExtID count: the
one-byte fields hold `len % 256` and the encoding otherwise proceeds
unchanged. -/
theorem entry_marshal_truncates (e : Entry)
    (_h : 255 < e.ChainID.length ∨ 255 < e.ExtIDs.length) :
    e.MarshalBinary = [e.ChainID.length % 256] ++ e.ChainID ++ [e.ExtIDs.length % 256]
      ++ (e.ExtIDs.map fun x => beBytes4 x.length ++ x).flatten ++ e.Data :=
  entry_marshal_normal_form e

set_option maxRecDepth 8192 in
/-- C5 witness: the 256-byte-ChainID entry is marshalled with a leading length
byte of `0` (`256 % 256`). -/
theorem entry_marshal_truncates_witness :
    (255 < bigEntry.ChainID.length ∨ 255 < bigEntry.ExtIDs.length)
    ∧ (bigEntry.MarshalBinary = [bigEntry.ChainID.length % 256] ++ bigEntry.ChainID
        ++ [bigEntry.ExtIDs.length % 256]
        ++ (bigEntry.ExtIDs.map fun x => beBytes4 x.length ++ x).flatten ++ bigEntry.Data
      ∧ bigEntry.MarshalBinary.head? = some 0) :=
  ⟨Or.inl (by decide),
   entry_marshal_truncates bigEntry (Or.inl (by decide)), by decide⟩

end Factom

namespace Factom

/-- C6: `Chain.MarshalBinary` is the concatenation of the raw ChainID, an
8-byte big-endian segment count, and 8-byte big-endian length-prefixed
segments, and is completely independent of `FirstEntry`. -/
theorem chain_marshal_layout :
    (∀ c : Chain, c.MarshalBinary = chainLayoutSpec c)
    ∧ ∀ (cid : List Nat) (name : List (List Nat)) (f₁ f₂ : Option Entry),
        (Chain.mk cid name f₁).MarshalBinary = (Chain.mk cid name f₂).MarshalBinary := by
  refine ⟨fun c => ?_, fun cid name f₁ f₂ => rfl⟩
  rw [chain_marshal_normal_form]
  rfl

/-- C6 witness: the layout and the `FirstEntry`-independence at concrete
chains. -/
theorem chain_marshal_layout_witness :
    chain0.MarshalBinary = chainLayoutSpec chain0
    ∧ (Chain.mk [5] [[97]] (some exEntry)).MarshalBinary
        = (Chain.mk [5] [[97]] none).MarshalBinary :=
  ⟨chain_marshal_layout.1 chain0, chain_marshal_layout.2 [5] [[97]] (some exEntry) none⟩

/-- C7: `Chain.Hash` is an unfinished stub: it returns the constant placeholder
string `"abcdefg"` for every chain, so any two chains have the same hash. -/
theorem chain_hash_is_constant_stub :
    (∀ c₁ c₂ : Chain, c₁.Hash = c₂.Hash) ∧ ∀ c : Chain, c.Hash = "abcdefg" :=
  ⟨fun _ _ => rfl, fun _ => rfl⟩

/-- C7 witness: two concrete chains with different fields share the constant
hash. -/
theorem chain_hash_is_constant_stub_witness :
    chain0.Hash = Chain.Hash ⟨[1], [], some exEntry⟩ ∧ chain0.Hash = "abcdefg" :=
  ⟨chain_hash_is_constant_stub.1 chain0 ⟨[1], [], some exEntry⟩,
   chain_hash_is_constant_stub.2 chain0⟩

end Factom

namespace Wsapi

/-- The method switch falls through to `MethodNotFound` for any method name
outside the fifteen case labels. -/
theorem dispatch_unknown (w : Wallet) (j : JSON2Request)
    (h : j.method ∉ recognizedMethods) :
    dispatch w j = .error newMethodNotFoundError := by
  have ne : ∀ s ∈ recognizedMethods, j.method ≠ s := fun s hs hm => h (hm ▸ hs)
  unfold dispatch
  rw [if_neg (ne "address" (by decide)),
    if_neg (ne "all-addresses" (by decide)),
    if_neg (ne "generate-ec-address" (by decide)),
    if_neg (ne "generate-factoid-address" (by decide)),
    if_neg (ne "import-addresses" (by decide)),
    if_neg (ne "wallet-backup" (by decide)),
    if_neg (ne "new-transaction" (by decide)),
    if_neg (ne "delete-transaction" (by decide)),
    if_neg (ne "add-input" (by decide)),
    if_neg (ne "add-output" (by decide)),
    if_neg (ne "add-ec-output" (by decide)),
    if_neg (ne "add-fee" (by decide)),
    if_neg (ne "sub-fee" (by decide)),
    if_neg (ne "sign-transaction" (by decide)),
    if_neg (ne "compose-transaction" (by decide))]

/-- C8: an unrecognized method name produces a `MethodNotFound` error with no
result, and the rendered error response echoes the request's id. -/
theorem dispatch_unknown_method (w : Wallet) (j : JSON2Request)
    (h : j.method ∉ recognizedMethods) :
    handleV2Request w j = .error newMethodNotFoundError
    ∧ processParsedRequest w j = ⟨j.id, none, some newMethodNotFoundError⟩ := by
  have hd := dispatch_unknown w j h
  constructor
  · unfold handleV2Request
    rw [hd]
  · unfold processParsedRequest handleV2Request
    rw [hd]
    rfl

/-- C8 witness: the literal request `{"method":"bogus","params":{},"id":7}`
yields the `MethodNotFound` error response with id echoed as `7`. -/
theorem dispatch_unknown_method_witness :
    ("bogus" ∉ recognizedMethods)
    ∧ processParsedRequest emptyWallet ⟨"bogus", .obj [], .num 7⟩
        = ⟨.num 7, none, some newMethodNotFoundError⟩ :=
  ⟨by decide, (dispatch_unknown_method emptyWallet ⟨"bogus", .obj [], .num 7⟩ (by decide)).2⟩

/-- C9 (counterexample): the literal request
`{"method":"address","params":{"addr":"x"},"id":1}` does not yield
`InvalidParams`: the decode ignores the unknown field `addr`, leaves `address`
empty, and the handler rejects the empty address with an internal error. -/
theorem handle_address_wrong_field_counterexample :
    processParsedRequest emptyWallet ⟨"address", .obj [("addr", .str "x")], .num 1⟩
      = ⟨.num 1, none, some (newCustomInternalError "Invalid address type")⟩
    ∧ newCustomInternalError "Invalid address type" ≠ newInvalidParamsError :=
  ⟨rfl, by decide⟩

/-- C9 (amended): for each of the eleven param-binding handlers, a params
value that fails to decode into that handler's request struct (a JSON type
mismatch: params not an object or null, or a field of the wrong JSON type,
with keys matched case-insensitively as `encoding/json` does — e.g.
`{"Address":5}` is such a mismatch for `address`) yields `InvalidParams` for
every wallet, before any wallet operation; a wrong field name is not such a
mismatch — the example `{"addr":"x"}` decodes leniently to an empty address
and yields `InternalError("Invalid address type")` instead. -/
theorem handlers_invalid_params (w : Wallet) (p : Json) :
    (mapToAddressRequest p = none → handleAddress w p = .error newInvalidParamsError)
    ∧ (mapToImportRequest p = none → handleImportAddresses w p = .error newInvalidParamsError)
    ∧ (mapToTransactionRequest p = none → handleNewTransaction w p = .error newInvalidParamsError)
    ∧ (mapToTransactionRequest p = none →
        handleDeleteTransaction w p = .error newInvalidParamsError)
    ∧ (mapToTransactionValueRequest p = none → handleAddInput w p = .error newInvalidParamsError)
    ∧ (mapToTransactionValueRequest p = none → handleAddOutput w p = .error newInvalidParamsError)
    ∧ (mapToTransactionValueRequest p = none →
        handleAddECOutput w p = .error newInvalidParamsError)
    ∧ (mapToTransactionAddressRequest p = none → handleAddFee w p = .error newInvalidParamsError)
    ∧ (mapToTransactionAddressRequest p = none → handleSubFee w p = .error newInvalidParamsError)
    ∧ (mapToTransactionRequest p = none →
        handleSignTransaction w p = .error newInvalidParamsError)
    ∧ (mapToTransactionRequest p = none →
        handleComposeTransaction w p = .error newInvalidParamsError)
    ∧ handleAddress w (.obj [("Address", .num 5)]) = .error newInvalidParamsError
    ∧ handleAddress w (.obj [("addr", .str "x")])
        = .error (newCustomInternalError "Invalid address type") := by
  refine ⟨fun h => ?_, fun h => ?_, fun h => ?_, fun h => ?_, fun h => ?_, fun h => ?_,
    fun h => ?_, fun h => ?_, fun h => ?_, fun h => ?_, fun h => ?_, rfl, rfl⟩
  · unfold handleAddress
    rw [h]
  · unfold handleImportAddresses
    rw [h]
  · unfold handleNewTransaction
    rw [h]
  · unfold handleDeleteTransaction
    rw [h]
  · unfold handleAddInput
    rw [h]
  · unfold handleAddOutput
    rw [h]
  · unfold handleAddECOutput
    rw [h]
  · unfold handleAddFee
    rw [h]
  · unfold handleSubFee
    rw [h]
  · unfold handleSignTransaction
    rw [h]
  · unfold handleComposeTransaction
    rw [h]

/-- C9 witness: string params fail every decoder and yield `InvalidParams`
from each decoding handler, and the wrong-typed `{"Address":5}` params fail
the `address` decode case-insensitively. -/
theorem handlers_invalid_params_witness :
    (mapToAddressRequest (.str "x") = none
      ∧ mapToImportRequest (.str "x") = none
      ∧ mapToTransactionRequest (.str "x") = none
      ∧ mapToTransactionValueRequest (.str "x") = none
      ∧ mapToTransactionAddressRequest (.str "x") = none
      ∧ mapToAddressRequest (.obj [("Address", .num 5)]) = none)
    ∧ (handleAddress emptyWallet (.str "x") = .error newInvalidParamsError
      ∧ handleImportAddresses emptyWallet (.str "x") = .error newInvalidParamsError
      ∧ handleNewTransaction emptyWallet (.str "x") = .error newInvalidParamsError
      ∧ handleDeleteTransaction emptyWallet (.str "x") = .error newInvalidParamsError
      ∧ handleAddInput emptyWallet (.str "x") = .error newInvalidParamsError
      ∧ handleAddOutput emptyWallet (.str "x") = .error newInvalidParamsError
      ∧ handleAddECOutput emptyWallet (.str "x") = .error newInvalidParamsError
      ∧ handleAddFee emptyWallet (.str "x") = .error newInvalidParamsError
      ∧ handleSubFee emptyWallet (.str "x") = .error newInvalidParamsError
      ∧ handleSignTransaction emptyWallet (.str "x") = .error newInvalidParamsError
      ∧ handleComposeTransaction emptyWallet (.str "x") = .error newInvalidParamsError
      ∧ handleAddress emptyWallet (.obj [("Address", .num 5)]) = .error newInvalidParamsError
      ∧ handleAddress emptyWallet (.obj [("addr", .str "x")])
          = .error (newCustomInternalError "Invalid address type")) :=
  ⟨⟨rfl, rfl, rfl, rfl, rfl, rfl⟩,
   (handlers_invalid_params emptyWallet (.str "x")).1 rfl,
   (handlers_invalid_params emptyWallet (.str "x")).2.1 rfl,
   (handlers_invalid_params emptyWallet (.str "x")).2.2.1 rfl,
   (handlers_invalid_params emptyWallet (.str "x")).2.2.2.1 rfl,
   (handlers_invalid_params emptyWallet (.str "x")).2.2.2.2.1 rfl,
   (handlers_invalid_params emptyWallet (.str "x")).2.2.2.2.2.1 rfl,
   (handlers_invalid_params emptyWallet (.str "x")).2.2.2.2.2.2.1 rfl,
   (handlers_invalid_params emptyWallet (.str "x")).2.2.2.2.2.2.2.1 rfl,
   (handlers_invalid_params emptyWallet (.str "x")).2.2.2.2.2.2.2.2.1 rfl,
   (handlers_invalid_params emptyWallet (.str "x")).2.2.2.2.2.2.2.2.2.1 rfl,
   (handlers_invalid_params emptyWallet (.str "x")).2.2.2.2.2.2.2.2.2.2.1 rfl,
   (handlers_invalid_params emptyWallet (.str "x")).2.2.2.2.2.2.2.2.2.2.2.1,
   (handlers_invalid_params emptyWallet (.str "x")).2.2.2.2.2.2.2.2.2.2.2.2⟩

/-- C10: the handlers for generate-ec-address, generate-factoid-address,
all-addresses and wallet-backup never read `params`: their result is the same
for every params value, and is never an `InvalidParams` error. -/
theorem paramless_handlers_ignore_params (w : Wallet) (p : Json) :
    (handleGenerateECAddress w p = handleGenerateECAddress w .null
      ∧ handleGenerateECAddress w p ≠ .error newInvalidParamsError)
    ∧ (handleGenerateFactoidAddress w p = handleGenerateFactoidAddress w .null
      ∧ handleGenerateFactoidAddress w p ≠ .error newInvalidParamsError)
    ∧ (handleAllAddresses w p = handleAllAddresses w .null
      ∧ handleAllAddresses w p ≠ .error newInvalidParamsError)
    ∧ (handleWalletBackup w p = handleWalletBackup w .null
      ∧ handleWalletBackup w p ≠ .error newInvalidParamsError) := by
  refine ⟨⟨rfl, ?_⟩, ⟨rfl, ?_⟩, ⟨rfl, ?_⟩, ⟨rfl, ?_⟩⟩
  · unfold handleGenerateECAddress
    cases w.generateECAddress <;>
      simp [newCustomInternalError, newInvalidParamsError]
  · unfold handleGenerateFactoidAddress
    cases w.generateFCTAddress <;>
      simp [newCustomInternalError, newInvalidParamsError]
  · unfold handleAllAddresses
    rcases w.getAllAddresses with e | ⟨fs, es⟩ <;>
      simp [newCustomInternalError, newInvalidParamsError]
  · unfold handleWalletBackup
    cases hs : w.getSeed with
    | error e => simp [newCustomInternalError, newInvalidParamsError]
    | ok seed =>
      rcases w.getAllAddresses with e | ⟨fs, es⟩ <;>
        simp [newCustomInternalError, newInvalidParamsError]

/-- C10 witness: the four handlers at a concrete wallet treat arbitrary string
params and null params alike, with no `InvalidParams` error. -/
theorem paramless_handlers_ignore_params_witness :
    (handleGenerateECAddress emptyWallet (.str "junk") = handleGenerateECAddress emptyWallet .null
      ∧ handleGenerateECAddress emptyWallet (.str "junk") ≠ .error newInvalidParamsError)
    ∧ (handleGenerateFactoidAddress emptyWallet (.str "junk")
          = handleGenerateFactoidAddress emptyWallet .null
      ∧ handleGenerateFactoidAddress emptyWallet (.str "junk") ≠ .error newInvalidParamsError)
    ∧ (handleAllAddresses emptyWallet (.str "junk") = handleAllAddresses emptyWallet .null
      ∧ handleAllAddresses emptyWallet (.str "junk") ≠ .error newInvalidParamsError)
    ∧ (handleWalletBackup emptyWallet (.str "junk") = handleWalletBackup emptyWallet .null
      ∧ handleWalletBackup emptyWallet (.str "junk") ≠ .error newInvalidParamsError) :=
  paramless_handlers_ignore_params emptyWallet (.str "junk")

end Wsapi
